import Mathlib

/-!
# Verification of the on-demand model loader nodes (`src/nodes.py`)

Shallow embedding of the download-and-resolve utility of the
ComfyUI-CivitAI-Loader repository.  The three node methods
`OnDemandLoraLoader.download_lora`, `OnDemandUNETLoader.download_unet` and
`OnDemandCheckpointLoader.download_checkpoint` are modelled as pure functions
over an explicit environment: the configuration table, the process
environment variables, the behaviour of the single `requests.get` call of the
invocation, and a small filesystem/trace state.  Logging calls are side
channels with no observable effect on control flow and are not modelled.
-/

namespace OnDemand

/-- One `{"name": ..., "url": ...}` record of the configuration table. -/
structure ModelRecord where
  name : String
  url  : String
deriving DecidableEq, Repr

/-- The configuration table: a JSON object mapping a category key
(`"loras"`, `"diffusion_models"`, `"checkpoints"`) to a list of records.
JSON objects parsed by `json.load` have unique keys, so an association list
is a faithful model of the dict. -/
abbrev Config : Type := List (String × List ModelRecord)

/-- Python dict access `cfg[key]`: `none` models an uncaught `KeyError`. -/
def configLookup : Config → String → Option (List ModelRecord)
  | [], _ => none
  | (k, v) :: rest, key => if k = key then some v else configLookup rest key

/-- How the attempt to open and `json.load` the configuration file ends
(`load_config`, src/nodes.py lines 41-54). -/
inductive ConfigFile where
  /-- the file exists and parses to `c` -/
  | found (c : Config)
  /-- raised `FileNotFoundError` -/
  | missing
  /-- raised `json.JSONDecodeError` -/
  | malformed
  /-- any other exception while loading -/
  | otherError
deriving DecidableEq

/-- The built-in `default_config` literal (src/nodes.py lines 28-39). -/
def default_config : Config :=
  [("loras",
    [{ name := "Lora n1", url := "not_valid_url" },
     { name := "Lora n2", url := "not_valid_url" }])]

/-- Function `load_config` (src/nodes.py lines 23-54): return the parsed file, and on
`FileNotFoundError`, `json.JSONDecodeError` or any other exception fall back
to `default_config` (the failure is logged as a warning or error). -/
def load_config : ConfigFile → Config
  | .found c => c
  | .missing => default_config
  | .malformed => default_config
  | .otherError => default_config

/-- The resolution loop (src/nodes.py lines 92-96): linear search over the
category's record list, `break` on the first record whose `name` matches;
`none` models the loop ending with `lora_url` still `None`. -/
def resolveUrl : List ModelRecord → String → Option String
  | [], _ => none
  | r :: rs, nm => if r.name = nm then some r.url else resolveUrl rs nm

/-- Python truthiness of an optional string: `None` and `""` are falsy. -/
def pyTruthy : Option String → Bool
  | none => false
  | some s => !(s = "")

/-- Python `a or b` on optional strings. -/
def pyOr (a b : Option String) : Option String :=
  if pyTruthy a then a else b

/-- Strip an expected literal prefix; `none` when it does not match. -/
def dropPrefixLit : List Char → List Char → Option (List Char)
  | [], s => some s
  | _ :: _, [] => none
  | c :: cs, d :: ds => if c = d then dropPrefixLit cs ds else none

/-- Python `s.startswith(pre)`: the characters of `pre` are a prefix of
the characters of `s`. -/
def pyStartswith (s pre : String) : Bool :=
  (dropPrefixLit pre.data s.data).isSome

/-- Token selection (src/nodes.py lines 101-105): for a CivitAI-host URL,
`api_key = api_key or os.environ.get('CIVITAI_TOKEN')`; for a
HuggingFace-host URL, `api_key = api_key or os.environ.get('HUGGINGFACE_TOKEN')`. -/
def selectApiKey (url : String) (api_key : Option String)
    (env : String → Option String) : Option String :=
  let k1 := if pyStartswith url "https://civitai.com"
    then pyOr api_key (env "CIVITAI_TOKEN") else api_key
  if pyStartswith url "https://huggingface.co"
    then pyOr k1 (env "HUGGINGFACE_TOKEN") else k1

/-- Header construction (src/nodes.py lines 107-112): `headers` stays `None`
unless the selected key is truthy, in which case the `Authorization` value is
`f"Bearer {api_key}"`. -/
def mkHeaders : Option String → Option String
  | none => none
  | some s => if s = "" then none else some ("Bearer " ++ s)

/-- The literal part of the pattern `filename="?([^"]+)"?`. -/
def litFilename : List Char :=
  ['f', 'i', 'l', 'e', 'n', 'a', 'm', 'e', '=']

/-- Attempt the pattern `filename="?([^"]+)"?` anchored at the start of `s`,
returning capture group 1.  The greedy optional quote is consumed when
present; the capture is the maximal nonempty run of non-quote characters
(when that run is empty, backtracking on the optional quote also fails, so
the whole attempt fails). -/
def matchFilenameAt (s : List Char) : Option (List Char) :=
  match dropPrefixLit litFilename s with
  | none => none
  | some rest =>
    let body := match rest with
      | '"' :: t => t
      | t => t
    let cap := body.takeWhile (fun c => !(c = '"'))
    if cap.isEmpty then none else some cap

/-- Search `re.search(r'filename="?([^"]+)"?', s)`: leftmost successful match. -/
def searchFilename : List Char → Option (List Char)
  | [] => none
  | c :: cs =>
    match matchFilenameAt (c :: cs) with
    | some cap => some cap
    | none => searchFilename cs

/-- Python `str.strip()`: drop leading and trailing whitespace. -/
def pyStrip (s : List Char) : List Char :=
  ((s.dropWhile Char.isWhitespace).reverse.dropWhile Char.isWhitespace).reverse

/-- Filename derivation (src/nodes.py lines 116-122): the filename starts as
`None`; when the `Content-Disposition` header is present and the regex
matches, it becomes `filename_match.group(1).strip()`. -/
def deriveFilename : Option String → Option String
  | none => none
  | some cd =>
    match searchFilename cd.data with
    | some cap => some (String.mk (pyStrip cap))
    | none => none

/-- The response delivered by `requests.get` when it returns.
`streamOk` states whether reading `response.iter_content` and writing the
chunks to the opened destination file completes without an exception; the
`content-length` header only drives the progress bar and is not modelled. -/
structure HttpResponse where
  status : Nat
  contentDisposition : Option String
  streamOk : Bool
deriving DecidableEq

/-- Behaviour of the single `requests.get(...)` call of an invocation. -/
inductive NetBehavior where
  /-- call `requests.get` itself raises a transport exception -/
  | raises
  /-- call `requests.get` returns the response `r` -/
  | resp (r : HttpResponse)
deriving DecidableEq

/-- Filesystem and call-trace state threaded through an invocation:
the set of existing file paths, the number of `requests.get` calls issued,
and the number of completed body downloads written to disk. -/
structure DlState where
  fs : List String
  getCount : Nat
  writeCount : Nat
deriving DecidableEq

/-- Constant `folder_paths.models_dir`, supplied by the host process. -/
def models_dir : String := "models"

/-- Path `os.path.join(folder_paths.models_dir, "loras")`. -/
def loras_models_dir : String := models_dir ++ "/" ++ "loras"

/-- Path `os.path.join(folder_paths.models_dir, "diffusion_models")`. -/
def diffusion_models_dir : String := models_dir ++ "/" ++ "diffusion_models"

/-- Path `os.path.join(folder_paths.models_dir, "checkpoints")`. -/
def checkpoint_models_dir : String := models_dir ++ "/" ++ "checkpoints"

/-- How an invocation of `download_lora` ends.  `model` and `clip` are the
caller's original inputs, of abstract types `α` and `β`. -/
inductive Outcome (α β : Type) where
  /-- statement `return model, clip`: the original inputs returned unchanged -/
  | fallback (model : α) (clip : β)
  /-- the delegate `LoraLoader.load_lora` is invoked with this filename -/
  | loaded (filename : String)
  /-- uncaught `KeyError` at `NODE_CONFIG["loras"]` (line 93) -/
  | keyError
  /-- uncaught transport exception raised by `requests.get` (line 114) -/
  | transportError
  /-- uncaught `requests.exceptions.HTTPError` from `raise_for_status` (line 115) -/
  | httpError
  /-- uncaught `TypeError` from `os.path.join(loras_models_dir, None)` (line 124) -/
  | typeError
deriving DecidableEq

/-- Holds `true` exactly on the `fallback` outcome. -/
def Outcome.isFallback {α β : Type} : Outcome α β → Bool
  | .fallback _ _ => true
  | _ => false

/-- Holds `true` exactly on the `keyError` outcome. -/
def Outcome.isKeyError {α β : Type} : Outcome α β → Bool
  | .keyError => true
  | _ => false

/-- Method `OnDemandLoraLoader.download_lora` (src/nodes.py lines 86-151).
Control flow, in source order: look up `NODE_CONFIG["loras"]` (`KeyError`
when the key is absent); resolve `lora_name` to a URL by linear search and
return `(model, clip)` when `not lora_url` (never set, or a falsy empty
string); select the API key and build the headers; issue `requests.get`
(counted in `getCount`; an exception here is uncaught); `raise_for_status`
(uncaught for a 4xx/5xx status); derive the filename from
`Content-Disposition` (still `None` on a missing header or failed match, in
which case `os.path.join` raises an uncaught `TypeError`); skip the download
when the destination path exists; otherwise run the guarded download block:
with `download_chunks` at its `None` default, `download_chunks * 1024`
raises a `TypeError` inside the `try`, caught by the generic handler which
returns `(model, clip)`; a streaming/write exception is likewise caught and
returns `(model, clip)`, leaving the partially written file in place (the
destination was already created by `open(..., 'wb')`); on success the file
is written and counted in `writeCount`.  Finally the delegate is invoked
with the derived filename. -/
def download_lora {α β : Type} (cfg : Config) (env : String → Option String)
    (net : NetBehavior) (lora_name : String) (model : α) (clip : β)
    (api_key : Option String) (download_chunks : Option Nat)
    (st : DlState) : Outcome α β × DlState :=
  match configLookup cfg "loras" with
  | none => (.keyError, st)
  | some loras =>
    match resolveUrl loras lora_name with
    | none => (.fallback model clip, st)
    | some lora_url =>
      if lora_url = "" then (.fallback model clip, st)
      else
        let key := selectApiKey lora_url api_key env
        let _headers := mkHeaders key
        let st1 : DlState := { st with getCount := st.getCount + 1 }
        match net with
        | .raises => (.transportError, st1)
        | .resp r =>
          if 400 ≤ r.status ∧ r.status < 600 then (.httpError, st1)
          else
            match deriveFilename r.contentDisposition with
            | none => (.typeError, st1)
            | some fname =>
              let path := loras_models_dir ++ "/" ++ fname
              if path ∈ st1.fs then (.loaded fname, st1)
              else
                match download_chunks with
                | none => (.fallback model clip, st1)
                | some _n =>
                  if r.streamOk then
                    (.loaded fname,
                      { st1 with fs := path :: st1.fs,
                                 writeCount := st1.writeCount + 1 })
                  else
                    (.fallback model clip, { st1 with fs := path :: st1.fs })

/-- How an invocation of `download_unet` or `download_checkpoint` ends. -/
inductive UOutcome where
  /-- statement `return None`: the abort fallback of the UNET/checkpoint loaders -/
  | returnedNone
  /-- the external delegate loader is invoked with this filename -/
  | loaded (filename : String)
  /-- uncaught `KeyError` at the configuration table lookup -/
  | keyError
  /-- uncaught transport exception raised by `requests.get` -/
  | transportError
  /-- uncaught `requests.exceptions.HTTPError` from `raise_for_status` -/
  | httpError
  /-- uncaught `TypeError` from `os.path.join` on a `None` filename -/
  | typeError
deriving DecidableEq

/-- Method `OnDemandUNETLoader.download_unet` (src/nodes.py lines 178-243); the
structure mirrors `download_lora` with category key `"diffusion_models"`,
destination `diffusion_models_dir`, and the `return None` abort fallback.
`weight_dtype` is passed through to the delegate only. -/
def download_unet (cfg : Config) (env : String → Option String)
    (net : NetBehavior) (unet_name : String) (_weight_dtype : String)
    (api_key : Option String) (download_chunks : Option Nat)
    (st : DlState) : UOutcome × DlState :=
  match configLookup cfg "diffusion_models" with
  | none => (.keyError, st)
  | some models =>
    match resolveUrl models unet_name with
    | none => (.returnedNone, st)
    | some model_url =>
      if model_url = "" then (.returnedNone, st)
      else
        let key := selectApiKey model_url api_key env
        let _headers := mkHeaders key
        let st1 : DlState := { st with getCount := st.getCount + 1 }
        match net with
        | .raises => (.transportError, st1)
        | .resp r =>
          if 400 ≤ r.status ∧ r.status < 600 then (.httpError, st1)
          else
            match deriveFilename r.contentDisposition with
            | none => (.typeError, st1)
            | some fname =>
              let path := diffusion_models_dir ++ "/" ++ fname
              if path ∈ st1.fs then (.loaded fname, st1)
              else
                match download_chunks with
                | none => (.returnedNone, st1)
                | some _n =>
                  if r.streamOk then
                    (.loaded fname,
                      { st1 with fs := path :: st1.fs,
                                 writeCount := st1.writeCount + 1 })
                  else
                    (.returnedNone, { st1 with fs := path :: st1.fs })

/-- Method `OnDemandCheckpointLoader.download_checkpoint` (src/nodes.py lines
271-335); the structure mirrors `download_lora` with category key
`"checkpoints"`, destination `checkpoint_models_dir`, and the `return None`
abort fallback. -/
def download_checkpoint (cfg : Config) (env : String → Option String)
    (net : NetBehavior) (ckpt_name : String)
    (api_key : Option String) (download_chunks : Option Nat)
    (st : DlState) : UOutcome × DlState :=
  match configLookup cfg "checkpoints" with
  | none => (.keyError, st)
  | some models =>
    match resolveUrl models ckpt_name with
    | none => (.returnedNone, st)
    | some model_url =>
      if model_url = "" then (.returnedNone, st)
      else
        let key := selectApiKey model_url api_key env
        let _headers := mkHeaders key
        let st1 : DlState := { st with getCount := st.getCount + 1 }
        match net with
        | .raises => (.transportError, st1)
        | .resp r =>
          if 400 ≤ r.status ∧ r.status < 600 then (.httpError, st1)
          else
            match deriveFilename r.contentDisposition with
            | none => (.typeError, st1)
            | some fname =>
              let path := checkpoint_models_dir ++ "/" ++ fname
              if path ∈ st1.fs then (.loaded fname, st1)
              else
                match download_chunks with
                | none => (.returnedNone, st1)
                | some _n =>
                  if r.streamOk then
                    (.loaded fname,
                      { st1 with fs := path :: st1.fs,
                                 writeCount := st1.writeCount + 1 })
                  else
                    (.returnedNone, { st1 with fs := path :: st1.fs })

/-! ## Helper lemmas -/

/-- Linear search returns `none` when no record's name matches. -/
theorem resolveUrl_absent (recs : List ModelRecord) (nm : String)
    (h : ∀ q ∈ recs, q.name ≠ nm) : resolveUrl recs nm = none := by
  induction recs with
  | nil => rfl
  | cons a as ih =>
    have ha : a.name ≠ nm := h a (List.mem_cons_self a as)
    simp only [resolveUrl, if_neg ha]
    exact ih fun q hq => h q (List.mem_cons_of_mem a hq)

/-- Linear search returns the URL of the first matching record. -/
theorem resolveUrl_first_match (pre post : List ModelRecord) (r : ModelRecord)
    (nm : String) (hpre : ∀ q ∈ pre, q.name ≠ nm) (hr : r.name = nm) :
    resolveUrl (pre ++ r :: post) nm = some r.url := by
  induction pre with
  | nil => simp [resolveUrl, hr]
  | cons a as ih =>
    have ha : a.name ≠ nm := hpre a (List.mem_cons_self a as)
    simp only [List.cons_append, resolveUrl, if_neg ha]
    exact ih fun q hq => hpre q (List.mem_cons_of_mem a hq)

/-! ## Concrete scenario data shared by counterexamples and witnesses -/

/-- A CivitAI-style download URL used in concrete scenarios. -/
def testUrl : String := "https://civitai.com/api/download/models/12345"

/-- A one-record configuration used in concrete scenarios. -/
def testConfig : Config := [("loras", [{ name := "MyLora", url := testUrl }])]

/-- An environment with no token variables set. -/
def emptyEnv : String → Option String := fun _ => none

/-- An environment in which only `CIVITAI_TOKEN` is set. -/
def envCivOnly : String → Option String :=
  fun v => if v = "CIVITAI_TOKEN" then some "envciv" else none

/-- An environment in which only `HUGGINGFACE_TOKEN` is set. -/
def envHugOnly : String → Option String :=
  fun v => if v = "HUGGINGFACE_TOKEN" then some "envhug" else none

/-- A healthy response that names `foo.safetensors` and streams correctly. -/
def respFoo : HttpResponse :=
  { status := 200,
    contentDisposition := some "attachment; filename=\"foo.safetensors\"",
    streamOk := true }

/-- A response whose body streaming raises a network-layer exception. -/
def respStreamFail : HttpResponse :=
  { status := 200,
    contentDisposition := some "attachment; filename=\"foo.safetensors\"",
    streamOk := false }

/-! ## Claims -/

/-- C1, counterexample: with a one-record configuration and a 404 response,
`download_lora` ends in the uncaught `HTTPError` raised by
`raise_for_status` — not in the return-original-inputs fallback that the
claim asserts — so an exception does escape to the caller. -/
theorem c1_counterexample :
    download_lora testConfig emptyEnv
        (.resp { status := 404, contentDisposition := none, streamOk := true })
        "MyLora" (0 : Nat) (0 : Nat) none (some 4)
        { fs := [], getCount := 0, writeCount := 0 } =
      (Outcome.httpError, { fs := [], getCount := 1, writeCount := 0 }) ∧
    (Outcome.httpError : Outcome Nat Nat).isFallback = false := by
  decide

/-- C1 (amended): for every invocation in which the HTTP GET returns a
4xx/5xx status, the exception raised by `raise_for_status` is NOT caught
inside the download operation — `raise_for_status` runs outside the
`try` block, so the exception escapes to the caller uncaught and the
original model/clip inputs are not returned. -/
theorem c1_theorem (α β : Type) (cfg : Config) (recs : List ModelRecord)
    (env : String → Option String) (nm u : String) (r : HttpResponse)
    (model : α) (clip : β) (key : Option String) (chunks : Option Nat)
    (st : DlState)
    (hcfg : configLookup cfg "loras" = some recs)
    (hres : resolveUrl recs nm = some u) (hu : u ≠ "")
    (h4 : 400 ≤ r.status) (h6 : r.status < 600) :
    (download_lora cfg env (.resp r) nm model clip key chunks st).1 =
      .httpError := by
  unfold download_lora
  simp only [hcfg, hres, if_neg hu, if_pos (And.intro h4 h6)]

/-- C1, witness: the amended statement instantiated at a 404 response. -/
theorem c1_witness :
    (download_lora testConfig emptyEnv
        (.resp { status := 404, contentDisposition := none, streamOk := true })
        "MyLora" (0 : Nat) (0 : Nat) none (some 4)
        { fs := [], getCount := 0, writeCount := 0 }).1 = .httpError :=
  c1_theorem Nat Nat testConfig [{ name := "MyLora", url := testUrl }]
    emptyEnv "MyLora" testUrl
    { status := 404, contentDisposition := none, streamOk := true }
    0 0 none (some 4) { fs := [], getCount := 0, writeCount := 0 }
    rfl rfl (by decide) (by decide) (by decide)

/-- C2, counterexample: with the destination file already present on disk,
one invocation of `download_lora` still performs one network GET
(`getCount` rises from 0 to 1), refuting "no network call is made"; the
presence guard only skips the body download (`writeCount` stays 0). -/
theorem c2_counterexample :
    download_lora testConfig emptyEnv (.resp respFoo) "MyLora"
        (0 : Nat) (0 : Nat) none (some 4)
        { fs := ["models/loras/foo.safetensors"], getCount := 0,
          writeCount := 0 } =
      (Outcome.loaded "foo.safetensors",
        { fs := ["models/loras/foo.safetensors"], getCount := 1,
          writeCount := 0 }) := by
  decide

/-- C2 (amended): the HTTP GET is issued unconditionally, before the
presence check; when the destination file already exists, only the body
streaming and the file write are skipped, and one network call is still
made.  Consequently, invoking the same logical-name download twice in
sequence performs two network fetches but exactly one body download/write,
the second call short-circuiting the write via the Presence Guard. -/
theorem c2_theorem :
    (∀ (α β : Type) (cfg : Config) (recs : List ModelRecord)
        (env : String → Option String) (nm u fname : String)
        (r : HttpResponse) (model : α) (clip : β) (key : Option String)
        (chunks : Option Nat) (st : DlState),
        configLookup cfg "loras" = some recs →
        resolveUrl recs nm = some u → u ≠ "" →
        r.status < 400 →
        deriveFilename r.contentDisposition = some fname →
        loras_models_dir ++ "/" ++ fname ∈ st.fs →
        download_lora cfg env (.resp r) nm model clip key chunks st =
          (.loaded fname, { st with getCount := st.getCount + 1 })) ∧
    (∀ (α β : Type) (cfg : Config) (recs : List ModelRecord)
        (env : String → Option String) (nm u fname : String)
        (r : HttpResponse) (model : α) (clip : β) (key : Option String)
        (n : Nat) (st : DlState),
        configLookup cfg "loras" = some recs →
        resolveUrl recs nm = some u → u ≠ "" →
        r.status < 400 →
        deriveFilename r.contentDisposition = some fname →
        loras_models_dir ++ "/" ++ fname ∉ st.fs →
        r.streamOk = true →
        (download_lora cfg env (.resp r) nm model clip key (some n) st).1 =
            .loaded fname ∧
        (download_lora cfg env (.resp r) nm model clip key (some n)
            (download_lora cfg env (.resp r) nm model clip key (some n)
              st).2).1 = .loaded fname ∧
        (download_lora cfg env (.resp r) nm model clip key (some n)
            (download_lora cfg env (.resp r) nm model clip key (some n)
              st).2).2.getCount = st.getCount + 2 ∧
        (download_lora cfg env (.resp r) nm model clip key (some n)
            (download_lora cfg env (.resp r) nm model clip key (some n)
              st).2).2.writeCount = st.writeCount + 1) := by
  constructor
  · intro α β cfg recs env nm u fname r model clip key chunks st
      hcfg hres hu hst hfn hmem
    have hnot : ¬(400 ≤ r.status ∧ r.status < 600) := by omega
    unfold download_lora
    simp only [hcfg, hres, if_neg hu, if_neg hnot, hfn, if_pos hmem]
  · intro α β cfg recs env nm u fname r model clip key n st
      hcfg hres hu hst hfn hnew hok
    have hnot : ¬(400 ≤ r.status ∧ r.status < 600) := by omega
    have h1 : download_lora cfg env (.resp r) nm model clip key (some n) st =
        (.loaded fname,
          { fs := (loras_models_dir ++ "/" ++ fname) :: st.fs,
            getCount := st.getCount + 1, writeCount := st.writeCount + 1 }) := by
      unfold download_lora
      simp only [hcfg, hres, if_neg hu, if_neg hnot, hfn, if_neg hnew, hok,
        if_true]
    have hmem : loras_models_dir ++ "/" ++ fname ∈
        (loras_models_dir ++ "/" ++ fname) :: st.fs :=
      List.mem_cons_self _ _
    have h2 : download_lora cfg env (.resp r) nm model clip key (some n)
        ({ fs := (loras_models_dir ++ "/" ++ fname) :: st.fs,
           getCount := st.getCount + 1,
           writeCount := st.writeCount + 1 } : DlState) =
        (.loaded fname,
          { fs := (loras_models_dir ++ "/" ++ fname) :: st.fs,
            getCount := st.getCount + 2, writeCount := st.writeCount + 1 }) := by
      unfold download_lora
      simp only [hcfg, hres, if_neg hu, if_neg hnot, hfn]
      simp [hmem]
    rw [h1, h2]
    simp [h1]

/-- C2, witness: both amended parts instantiated: a call with the file
already on disk performs one GET and no write; a fresh pair of back-to-back
calls performs two GETs and exactly one write. -/
theorem c2_witness :
    download_lora testConfig emptyEnv (.resp respFoo) "MyLora"
        (0 : Nat) (0 : Nat) none (some 4)
        { fs := ["models/loras/foo.safetensors"], getCount := 0,
          writeCount := 0 } =
      (.loaded "foo.safetensors",
        { fs := ["models/loras/foo.safetensors"], getCount := 1,
          writeCount := 0 }) ∧
    ((download_lora testConfig emptyEnv (.resp respFoo) "MyLora"
        (0 : Nat) (0 : Nat) none (some 4)
        (download_lora testConfig emptyEnv (.resp respFoo) "MyLora"
          (0 : Nat) (0 : Nat) none (some 4)
          { fs := [], getCount := 0, writeCount := 0 }).2).2.getCount = 2 ∧
     (download_lora testConfig emptyEnv (.resp respFoo) "MyLora"
        (0 : Nat) (0 : Nat) none (some 4)
        (download_lora testConfig emptyEnv (.resp respFoo) "MyLora"
          (0 : Nat) (0 : Nat) none (some 4)
          { fs := [], getCount := 0, writeCount := 0 }).2).2.writeCount = 1) :=
  ⟨c2_theorem.1 Nat Nat testConfig [{ name := "MyLora", url := testUrl }]
      emptyEnv "MyLora" testUrl "foo.safetensors" respFoo 0 0 none (some 4)
      { fs := ["models/loras/foo.safetensors"], getCount := 0, writeCount := 0 }
      rfl rfl (by decide) (by decide) (by decide) (by decide),
   ⟨(c2_theorem.2 Nat Nat testConfig [{ name := "MyLora", url := testUrl }]
        emptyEnv "MyLora" testUrl "foo.safetensors" respFoo 0 0 none 4
        { fs := [], getCount := 0, writeCount := 0 }
        rfl rfl (by decide) (by decide) (by decide) (by decide)
        (by decide)).2.2.1,
    (c2_theorem.2 Nat Nat testConfig [{ name := "MyLora", url := testUrl }]
        emptyEnv "MyLora" testUrl "foo.safetensors" respFoo 0 0 none 4
        { fs := [], getCount := 0, writeCount := 0 }
        rfl rfl (by decide) (by decide) (by decide) (by decide)
        (by decide)).2.2.2⟩⟩

/-- C3: for every logical name present in the category's record list,
resolution returns the exact configured URL of the first matching record
(linear search, first match wins); for every absent name, resolution yields
no URL and the operation aborts without raising: `download_lora` returns the
original model/clip unchanged and `download_unet` returns nothing usable. -/
theorem c3_theorem :
    (∀ (pre post : List ModelRecord) (r : ModelRecord) (nm : String),
        (∀ q ∈ pre, q.name ≠ nm) → r.name = nm →
        resolveUrl (pre ++ r :: post) nm = some r.url) ∧
    (∀ (recs : List ModelRecord) (nm : String),
        (∀ q ∈ recs, q.name ≠ nm) → resolveUrl recs nm = none) ∧
    (∀ (α β : Type) (cfg : Config) (recs : List ModelRecord)
        (env : String → Option String) (net : NetBehavior) (nm : String)
        (model : α) (clip : β) (key : Option String) (chunks : Option Nat)
        (st : DlState),
        configLookup cfg "loras" = some recs →
        (∀ q ∈ recs, q.name ≠ nm) →
        download_lora cfg env net nm model clip key chunks st =
          (.fallback model clip, st)) ∧
    (∀ (cfg : Config) (recs : List ModelRecord)
        (env : String → Option String) (net : NetBehavior) (nm wd : String)
        (key : Option String) (chunks : Option Nat) (st : DlState),
        configLookup cfg "diffusion_models" = some recs →
        (∀ q ∈ recs, q.name ≠ nm) →
        download_unet cfg env net nm wd key chunks st =
          (.returnedNone, st)) := by
  refine ⟨resolveUrl_first_match, resolveUrl_absent, ?_, ?_⟩
  · intro α β cfg recs env net nm model clip key chunks st hcfg habs
    unfold download_lora
    simp only [hcfg, resolveUrl_absent recs nm habs]
  · intro cfg recs env net nm wd key chunks st hcfg habs
    unfold download_unet
    simp only [hcfg, resolveUrl_absent recs nm habs]

/-- C3, witness: all four parts at concrete inputs — a duplicate-name list
where the first match wins, an absent name, and the two abort fallbacks. -/
theorem c3_witness :
    resolveUrl [{ name := "A", url := "u1" }, { name := "B", url := "u2" },
      { name := "B", url := "u3" }] "B" = some "u2" ∧
    resolveUrl [{ name := "A", url := "u1" }] "Z" = none ∧
    download_lora [("loras", [{ name := "A", url := "u1" }])] emptyEnv
        (.resp respFoo) "Z" (0 : Nat) (0 : Nat) none (some 4)
        { fs := [], getCount := 0, writeCount := 0 } =
      (.fallback 0 0, { fs := [], getCount := 0, writeCount := 0 }) ∧
    download_unet [("diffusion_models", [{ name := "A", url := "u1" }])]
        emptyEnv (.resp respFoo) "Z" "default" none (some 4)
        { fs := [], getCount := 0, writeCount := 0 } =
      (.returnedNone, { fs := [], getCount := 0, writeCount := 0 }) :=
  ⟨c3_theorem.1 [{ name := "A", url := "u1" }] [{ name := "B", url := "u3" }]
      { name := "B", url := "u2" } "B" (by decide) rfl,
   c3_theorem.2.1 [{ name := "A", url := "u1" }] "Z" (by decide),
   c3_theorem.2.2.1 Nat Nat [("loras", [{ name := "A", url := "u1" }])]
      [{ name := "A", url := "u1" }] emptyEnv (.resp respFoo) "Z" 0 0 none
      (some 4) { fs := [], getCount := 0, writeCount := 0 } rfl (by decide),
   c3_theorem.2.2.2 [("diffusion_models", [{ name := "A", url := "u1" }])]
      [{ name := "A", url := "u1" }] emptyEnv (.resp respFoo) "Z" "default"
      none (some 4) { fs := [], getCount := 0, writeCount := 0 } rfl
      (by decide)⟩

/-- C4: every network-layer exception raised during body streaming or file
writing is caught by the `except` handlers of the download block, the
operation aborts, and the original model/clip inputs are returned unchanged
— no exception outcome escapes to the caller. -/
theorem c4_theorem (α β : Type) (cfg : Config) (recs : List ModelRecord)
    (env : String → Option String) (nm u fname : String) (r : HttpResponse)
    (model : α) (clip : β) (key : Option String) (n : Nat) (st : DlState)
    (hcfg : configLookup cfg "loras" = some recs)
    (hres : resolveUrl recs nm = some u) (hu : u ≠ "")
    (hst : r.status < 400)
    (hfn : deriveFilename r.contentDisposition = some fname)
    (hnew : loras_models_dir ++ "/" ++ fname ∉ st.fs)
    (hbad : r.streamOk = false) :
    (download_lora cfg env (.resp r) nm model clip key (some n) st).1 =
      .fallback model clip := by
  have hnot : ¬(400 ≤ r.status ∧ r.status < 600) := by omega
  unfold download_lora
  simp only [hcfg, hres, if_neg hu, if_neg hnot, hfn, if_neg hnew, hbad,
    Bool.false_eq_true, if_false]

/-- C4, witness: a streaming failure at concrete inputs returns the
original `(model, clip) = (0, 0)` pair. -/
theorem c4_witness :
    (download_lora testConfig emptyEnv (.resp respStreamFail) "MyLora"
        (0 : Nat) (0 : Nat) none (some 4)
        { fs := [], getCount := 0, writeCount := 0 }).1 = .fallback 0 0 :=
  c4_theorem Nat Nat testConfig [{ name := "MyLora", url := testUrl }]
    emptyEnv "MyLora" testUrl "foo.safetensors" respStreamFail 0 0 none 4
    { fs := [], getCount := 0, writeCount := 0 }
    rfl rfl (by decide) (by decide) (by decide) (by decide) rfl

/-- C5: the bearer token is chosen with the explicit call-time token taking
precedence over environment lookup; with no explicit token, the fallback
environment variable is `CIVITAI_TOKEN` for a CivitAI-host URL and
`HUGGINGFACE_TOKEN` for a HuggingFace-host URL; when no token resolves, the
`Authorization` header is omitted entirely. -/
theorem c5_theorem :
    (∀ (url k : String) (env : String → Option String), k ≠ "" →
        mkHeaders (selectApiKey url (some k) env) =
          some ("Bearer " ++ k)) ∧
    (∀ (url : String) (env : String → Option String),
        pyStartswith url "https://civitai.com" = true →
        pyStartswith url "https://huggingface.co" = false →
        selectApiKey url none env = env "CIVITAI_TOKEN") ∧
    (∀ (url : String) (env : String → Option String),
        pyStartswith url "https://civitai.com" = false →
        pyStartswith url "https://huggingface.co" = true →
        selectApiKey url none env = env "HUGGINGFACE_TOKEN") ∧
    (∀ (url : String) (env : String → Option String),
        env "CIVITAI_TOKEN" = none → env "HUGGINGFACE_TOKEN" = none →
        mkHeaders (selectApiKey url none env) = none) := by
  refine ⟨?_, ?_, ?_, ?_⟩
  · intro url k env hk
    unfold selectApiKey pyOr pyTruthy mkHeaders
    simp [hk]
  · intro url env hc hh
    unfold selectApiKey
    simp [hc, hh, pyOr, pyTruthy]
  · intro url env hc hh
    unfold selectApiKey
    simp [hc, hh, pyOr, pyTruthy]
  · intro url env hciv hhug
    unfold selectApiKey
    simp [hciv, hhug, pyOr, pyTruthy, mkHeaders]

/-- C5, witness: all four parts at concrete URLs and environments. -/
theorem c5_witness :
    mkHeaders (selectApiKey testUrl (some "explicit") envCivOnly) =
      some ("Bearer " ++ "explicit") ∧
    selectApiKey testUrl none envCivOnly = envCivOnly "CIVITAI_TOKEN" ∧
    selectApiKey "https://huggingface.co/repo/file" none envHugOnly =
      envHugOnly "HUGGINGFACE_TOKEN" ∧
    mkHeaders (selectApiKey testUrl none emptyEnv) = none :=
  ⟨c5_theorem.1 testUrl "explicit" envCivOnly (by decide),
   c5_theorem.2.1 testUrl envCivOnly (by decide) (by decide),
   c5_theorem.2.2.1 "https://huggingface.co/repo/file" envHugOnly
     (by decide) (by decide),
   c5_theorem.2.2.2 testUrl emptyEnv rfl rfl⟩

/-- C6: when the configuration file is missing or its JSON is malformed,
`load_config` returns the built-in default placeholder table without
raising, and that table holds exactly the two placeholder records with the
invalid URL `not_valid_url`. -/
theorem c6_theorem :
    load_config .missing = default_config ∧
    load_config .malformed = default_config ∧
    configLookup default_config "loras" =
      some [{ name := "Lora n1", url := "not_valid_url" },
            { name := "Lora n2", url := "not_valid_url" }] := by
  refine ⟨rfl, rfl, by decide⟩

/-- C7: from a response header value
`attachment; filename="foo.safetensors"`, the derived filename is exactly
`foo.safetensors` — no surrounding quotes or whitespace. -/
theorem c7_theorem :
    deriveFilename (some "attachment; filename=\"foo.safetensors\"") =
      some "foo.safetensors" := by
  decide

/-- C8: when the response carries no `Content-Disposition` header (or one
the regex does not match), the filename stays unset and the operation still
proceeds to the path construction, where `os.path.join` on the undefined
filename raises an uncaught `TypeError` — the missing-filename case does
not produce the normal return-inputs-unchanged fallback. -/
theorem c8_theorem (α β : Type) (cfg : Config) (recs : List ModelRecord)
    (env : String → Option String) (nm u : String) (r : HttpResponse)
    (model : α) (clip : β) (key : Option String) (chunks : Option Nat)
    (st : DlState)
    (hcfg : configLookup cfg "loras" = some recs)
    (hres : resolveUrl recs nm = some u) (hu : u ≠ "")
    (hst : r.status < 400)
    (hfn : deriveFilename r.contentDisposition = none) :
    (download_lora cfg env (.resp r) nm model clip key chunks st).1 =
        .typeError ∧
    (download_lora cfg env (.resp r) nm model clip key chunks st).1.isFallback
        = false := by
  have hnot : ¬(400 ≤ r.status ∧ r.status < 600) := by omega
  have h : download_lora cfg env (.resp r) nm model clip key chunks st =
      (.typeError, { st with getCount := st.getCount + 1 }) := by
    unfold download_lora
    simp only [hcfg, hres, if_neg hu, if_neg hnot, hfn]
  rw [h]
  exact ⟨rfl, rfl⟩

/-- C8, witness: a 200 response with no `Content-Disposition` header ends
in the uncaught `TypeError` outcome, not in the fallback. -/
theorem c8_witness :
    (download_lora testConfig emptyEnv
        (.resp { status := 200, contentDisposition := none, streamOk := true })
        "MyLora" (0 : Nat) (0 : Nat) none (some 4)
        { fs := [], getCount := 0, writeCount := 0 }).1 = .typeError ∧
    (download_lora testConfig emptyEnv
        (.resp { status := 200, contentDisposition := none, streamOk := true })
        "MyLora" (0 : Nat) (0 : Nat) none (some 4)
        { fs := [], getCount := 0, writeCount := 0 }).1.isFallback = false :=
  c8_theorem Nat Nat testConfig [{ name := "MyLora", url := testUrl }]
    emptyEnv "MyLora" testUrl
    { status := 200, contentDisposition := none, streamOk := true }
    0 0 none (some 4) { fs := [], getCount := 0, writeCount := 0 }
    rfl rfl (by decide) (by decide) rfl

/-- C9: when the explicit `api_key` argument is the empty string and an
environment token is set for the URL's host, the environment token is the
one placed in the `Authorization` header — the empty explicit token does
not take precedence, because `api_key or os.environ.get(...)` tests Python
truthiness rather than presence. -/
theorem c9_theorem :
    (∀ (url t : String) (env : String → Option String),
        pyStartswith url "https://civitai.com" = true →
        env "CIVITAI_TOKEN" = some t → t ≠ "" →
        mkHeaders (selectApiKey url (some "") env) =
          some ("Bearer " ++ t)) ∧
    (∀ (url t : String) (env : String → Option String),
        pyStartswith url "https://civitai.com" = false →
        pyStartswith url "https://huggingface.co" = true →
        env "HUGGINGFACE_TOKEN" = some t → t ≠ "" →
        mkHeaders (selectApiKey url (some "") env) =
          some ("Bearer " ++ t)) := by
  constructor
  · intro url t env hc henv ht
    unfold selectApiKey
    simp [hc, henv, pyOr, pyTruthy, mkHeaders, ht]
  · intro url t env hc hh henv ht
    unfold selectApiKey
    simp [hc, hh, henv, pyOr, pyTruthy, mkHeaders, ht]

/-- C9, witness: an empty explicit key with `CIVITAI_TOKEN` set on a
CivitAI URL, and with `HUGGINGFACE_TOKEN` set on a HuggingFace URL. -/
theorem c9_witness :
    mkHeaders (selectApiKey testUrl (some "") envCivOnly) =
      some ("Bearer " ++ "envciv") ∧
    mkHeaders (selectApiKey "https://huggingface.co/repo/file" (some "")
        envHugOnly) = some ("Bearer " ++ "envhug") :=
  ⟨c9_theorem.1 testUrl "envciv" envCivOnly (by decide) (by decide)
     (by decide),
   c9_theorem.2 "https://huggingface.co/repo/file" "envhug" envHugOnly
     (by decide) (by decide) (by decide) (by decide)⟩

/-- C10: under the built-in default fallback configuration, every
invocation of the UNET loader and of the checkpoint loader ends in the
uncaught `KeyError` at the table lookup, because the default table holds
only the `"loras"` key; the LoRA loader alone never hits that `KeyError`
under the fallback configuration. -/
theorem c10_theorem :
    (∀ (env : String → Option String) (net : NetBehavior) (nm wd : String)
        (key : Option String) (chunks : Option Nat) (st : DlState),
        download_unet default_config env net nm wd key chunks st =
          (.keyError, st)) ∧
    (∀ (env : String → Option String) (net : NetBehavior) (nm : String)
        (key : Option String) (chunks : Option Nat) (st : DlState),
        download_checkpoint default_config env net nm key chunks st =
          (.keyError, st)) ∧
    (∀ (α β : Type) (env : String → Option String) (net : NetBehavior)
        (nm : String) (model : α) (clip : β) (key : Option String)
        (chunks : Option Nat) (st : DlState),
        (download_lora default_config env net nm model clip key chunks
          st).1.isKeyError = false) := by
  refine ⟨fun env net nm wd key chunks st => rfl,
    fun env net nm key chunks st => rfl, ?_⟩
  intro α β env net nm model clip key chunks st
  unfold download_lora
  simp only [show configLookup default_config "loras" =
    some [{ name := "Lora n1", url := "not_valid_url" },
          { name := "Lora n2", url := "not_valid_url" }] from rfl]
  repeat' split
  all_goals simp [Outcome.isKeyError]

end OnDemand
